import Mathlib

/-!
Verification of the theme, loading, navigation, scroll-progress, counter
and form-validation logic of `src/js/modern-multipage.js` (class
`ModernPortfolio`) and of the early theme-initialization script, via a
shallow embedding: the parts of the DOM and of `localStorage` that this
code touches become an explicit state record, and operations that can
throw (a `TypeError` on a null dereference, or a storage exception)
return `Option`, where `none` models an exception propagating to the
caller.
-/

/-- The two icon children of the `#theme-toggle` button.  A field is
`none` when the corresponding child element (`.light-icon` /
`.dark-icon`) is missing, and `some o` when it is present with CSS
opacity `o`. -/
structure ToggleBtn where
  lightIcon : Option String
  darkIcon : Option String
deriving Repr, DecidableEq

/-- A navigation link (`.nav-link`): we track its `href` attribute,
`none` when the attribute is absent (so `getAttribute('href')` returns
`null`). -/
structure NavLink where
  href : Option String
deriving Repr, DecidableEq

/-- The observable document / storage state that the portfolio code
reads and writes.  `storageAvailable = false` models a `localStorage`
whose operations throw (storage unavailable). -/
structure Dom where
  rootTheme : Option String
  bodyTheme : Option String
  rootClasses : List String
  bodyClasses : List String
  storage : Option String
  storageAvailable : Bool
  theme : String
  toggleBtn : Option ToggleBtn
  loadingScreen : Option (List String)
  loadListener : Bool
  loadingComplete : Bool
  navbar : Option (List String)
  navLinks : List NavLink
  progressBarCreated : Bool
  postLoadRan : Bool
deriving Repr, DecidableEq

/-- `classList.add c`: adds the class when not already present. -/
def addClass (cls : List String) (c : String) : List String :=
  if c ∈ cls then cls else cls ++ [c]

/-- `classList.remove c`: removes every occurrence of the class. -/
def removeClass (cls : List String) (c : String) : List String :=
  cls.filter (fun x => x ≠ c)

/-- `localStorage.getItem('theme')`: `none` models a thrown storage
exception; `some r` is a normal return, with `r = none` for a `null`
result (key absent). -/
def localStorage_getItem (d : Dom) : Option (Option String) :=
  if d.storageAvailable then some d.storage else none

/-- `localStorage.setItem('theme', v)`: `none` models a thrown storage
exception. -/
def localStorage_setItem (d : Dom) (v : String) : Option Dom :=
  if d.storageAvailable then some { d with storage := some v } else none

/-- JavaScript `x || dflt` on a string-or-null value: both `null` and
the empty string are falsy. -/
def jsOrDefault (x : Option String) (dflt : String) : String :=
  match x with
  | none => dflt
  | some s => if s = "" then dflt else s

/-- The constructor read `this.theme = localStorage.getItem('theme') ||
'light'` (modern-multipage.js line 6).  The read is not wrapped in
try/catch in the source, so a storage exception propagates (`none`). -/
def constructorReadTheme (d : Dom) : Option String :=
  (localStorage_getItem d).map (fun r => jsOrDefault r "light")

/-- `updateThemeIcon` (lines 83-97): returns without doing anything when
`#theme-toggle` is absent; otherwise writes opacity `0`/`1` to the two
icon children.  Both branches dereference `lightIcon` first and then
`darkIcon`, so a missing icon child raises a `TypeError` (`none`); the
partial style write that may precede the throw is not observable in this
model, which only reports the exception. -/
def updateThemeIcon (d : Dom) : Option Dom :=
  match d.toggleBtn with
  | none => some d
  | some btn =>
    if d.theme = "dark" then
      match btn.lightIcon, btn.darkIcon with
      | some _, some _ => some { d with toggleBtn := some ⟨some "0", some "1"⟩ }
      | _, _ => none
    else
      match btn.lightIcon, btn.darkIcon with
      | some _, some _ => some { d with toggleBtn := some ⟨some "1", some "0"⟩ }
      | _, _ => none

/-- `setTheme` (lines 62-75): sets `data-theme` on the document element
and body, persists via `localStorage.setItem` (not wrapped in try/catch,
so a storage exception propagates after the attributes were already
set), records `this.theme` and updates the toggle icon.  The 50ms
repaint timeout only toggles a transient `display` style and is not part
of the persistent state. -/
def setTheme (d : Dom) (t : String) : Option Dom :=
  (localStorage_setItem { d with rootTheme := some t, bodyTheme := some t } t).bind
    (fun d2 => updateThemeIcon { d2 with theme := t })

/-- `toggleTheme` (lines 77-81): applies the opposite of the current
theme.  `triggerThemeTransition` only sets a transient 300ms body
transition style that is cleared afterwards, so it does not change the
persistent state. -/
def toggleTheme (d : Dom) : Option Dom :=
  setTheme d (if d.theme = "light" then "dark" else "light")

/-- The startup theme resolution: the constructor read followed by
`setTheme(this.theme)`, the first statement of `init` (line 13). -/
def startupTheme (d : Dom) : Option Dom :=
  (constructorReadTheme d).bind (fun t => setTheme { d with theme := t } t)

/-- The early theme-initialization script (anti-flash script, loaded in
the document head): inside try/catch it reads the stored theme with the
same `|| 'light'` fallback, sets `data-theme` on the document element
and body, and adds a `dark-theme` / `light-theme` class to both; the
catch branch sets `data-theme` to `light` on the document element.  The
body-present path is modeled (the source falls back to deferred
listeners only when the body does not exist yet). -/
def earlyThemeInit (d : Dom) : Dom :=
  if d.storageAvailable then
    let savedTheme := jsOrDefault d.storage "light"
    let d1 := { d with rootTheme := some savedTheme, bodyTheme := some savedTheme }
    if savedTheme = "dark" then
      { d1 with bodyClasses := addClass d1.bodyClasses "dark-theme",
                rootClasses := addClass d1.rootClasses "dark-theme" }
    else
      { d1 with bodyClasses := addClass d1.bodyClasses "light-theme",
                rootClasses := addClass d1.rootClasses "light-theme" }
  else
    { d with rootTheme := some "light" }

/-- The icon configuration that `updateThemeIcon` writes for theme `t`
when the toggle button and both icons are present. -/
def iconFor (t : String) : ToggleBtn :=
  if t = "dark" then ⟨some "0", some "1"⟩ else ⟨some "1", some "0"⟩

lemma setTheme_spec (d d' : Dom) (t : String) (h : setTheme d t = some d') :
    d.storageAvailable = true ∧
    d' = { d with
           rootTheme := some t, bodyTheme := some t, storage := some t,
           theme := t,
           toggleBtn := if d.toggleBtn = none then none else some (iconFor t) } := by
  rcases d with ⟨rt, bt, rc, bc, st, sa, th, tb, ls, ll, lc, nb, nl, pb, pl⟩
  cases sa
  · simp [setTheme, localStorage_setItem] at h
  · refine ⟨rfl, ?_⟩
    simp only [setTheme, localStorage_setItem, if_true, Option.some_bind] at h
    rcases tb with _ | ⟨li, di⟩
    · simp only [updateThemeIcon] at h
      simp only [Option.some.injEq] at h
      subst h
      simp
    · by_cases ht : t = "dark" <;>
        cases li <;> cases di <;>
        simp_all [updateThemeIcon, iconFor]

lemma setTheme_total (d : Dom) (t li di : String)
    (hsa : d.storageAvailable = true)
    (hbtn : d.toggleBtn = some ⟨some li, some di⟩) :
    setTheme d t = some { d with
      rootTheme := some t, bodyTheme := some t, storage := some t,
      theme := t, toggleBtn := some (iconFor t) } := by
  rcases d with ⟨rt, bt, rc, bc, st, sa, th, tb, ls, ll, lc, nb, nl, pb, pl⟩
  simp only at hsa hbtn
  subst hsa hbtn
  by_cases ht : t = "dark" <;>
    simp [setTheme, localStorage_setItem, updateThemeIcon, iconFor, ht]

/-- A baseline document: storage available and empty, toggle button
present with both icons in the light configuration, no other elements. -/
def baseDom : Dom :=
  { rootTheme := none, bodyTheme := none, rootClasses := [], bodyClasses := [],
    storage := none, storageAvailable := true, theme := "light",
    toggleBtn := some ⟨some "1", some "0"⟩, loadingScreen := none,
    loadListener := false, loadingComplete := false, navbar := none,
    navLinks := [], progressBarCreated := false, postLoadRan := false }

/-- A document whose stored theme is the corrupt string "banana". -/
def corruptDom : Dom :=
  { baseDom with storage := some "banana" }

/-- C1 counterexample: with the corrupt stored value "banana", startup
(constructor read followed by `setTheme`) resolves the active theme to
"banana" — neither "light" nor "dark" — because the `||` fallback only
replaces null or the empty string and no validation is performed. -/
theorem startupTheme_corrupt_counterexample :
    (startupTheme corruptDom).map Dom.theme = some "banana" ∧
    (startupTheme corruptDom).map Dom.rootTheme = some (some "banana") ∧
    "banana" ≠ "light" ∧ "banana" ≠ "dark" := by
  decide

/-- C1 (amended): startup resolves the active theme (document attribute,
stored value and `this.theme`) to the stored string itself whenever it
is non-empty — including corrupt values — and defaults to "light" only
when the stored value is absent (null) or the empty string. -/
theorem startupTheme_resolves (d d' : Dom) (h : startupTheme d = some d') :
    d'.theme = jsOrDefault d.storage "light" ∧
    d'.rootTheme = some d'.theme ∧ d'.bodyTheme = some d'.theme ∧
    d'.storage = some d'.theme ∧
    ((d.storage = none ∨ d.storage = some "") → d'.theme = "light") ∧
    (∀ s, d.storage = some s → s ≠ "" → d'.theme = s) := by
  cases hsa : d.storageAvailable
  · exfalso
    simp [startupTheme, constructorReadTheme, localStorage_getItem, hsa] at h
  · simp only [startupTheme, constructorReadTheme, localStorage_getItem, hsa,
      if_true, Option.map_some', Option.some_bind] at h
    obtain ⟨-, hd⟩ := setTheme_spec _ _ _ h
    subst hd
    refine ⟨rfl, rfl, rfl, rfl, ?_, ?_⟩
    · rintro (h1 | h1) <;> simp [jsOrDefault, h1]
    · intro s hs hne
      simp [jsOrDefault, hs, hne]

/-- C1 witness: on a document with no stored value the amended theorem
applies and startup yields the default light theme. -/
theorem startupTheme_resolves_witness :
    (startupTheme baseDom).map Dom.theme = some "light" := by
  have h : startupTheme baseDom =
      some { baseDom with
             rootTheme := some "light", bodyTheme := some "light",
             storage := some "light",
             toggleBtn := some ⟨some "1", some "0"⟩ } := by decide
  have := (startupTheme_resolves baseDom _ h).2.2.2.2.1 (Or.inl rfl)
  rw [h]
  simp only [Option.map_some']
  rw [this]

/-- C2: after every completed call to `setTheme t` with a theme of the
two-state machine, the `data-theme` attribute on the document root (and
body), the stored value, `this.theme`, and — whenever the toggle button
exists — the icon visibility (exactly one of the two icons at opacity
1, the one matching `t`) all agree on the same theme. -/
theorem setTheme_consistent (d d' : Dom) (t : String)
    (ht : t = "light" ∨ t = "dark") (h : setTheme d t = some d') :
    d'.rootTheme = some t ∧ d'.bodyTheme = some t ∧ d'.storage = some t ∧
    d'.theme = t ∧
    (∀ btn, d'.toggleBtn = some btn →
      ((btn.lightIcon = some "1" ∧ btn.darkIcon = some "0") ↔ t = "light") ∧
      ((btn.lightIcon = some "0" ∧ btn.darkIcon = some "1") ↔ t = "dark")) := by
  obtain ⟨-, hd⟩ := setTheme_spec _ _ _ h
  subst hd
  refine ⟨rfl, rfl, rfl, rfl, ?_⟩
  intro btn hbtn
  by_cases htb : d.toggleBtn = none
  · simp [htb] at hbtn
  · simp only [Dom.toggleBtn, htb, if_false, Option.some.injEq] at hbtn
    rcases ht with ht | ht <;> subst ht <;> simp [iconFor] at hbtn <;>
      subst hbtn <;> simp

/-- The state `setTheme baseDom "dark"` produces. -/
def darkDom : Dom :=
  { baseDom with
    rootTheme := some "dark", bodyTheme := some "dark",
    storage := some "dark", theme := "dark",
    toggleBtn := some ⟨some "0", some "1"⟩ }

/-- C2 witness: a concrete completed `setTheme "dark"` call, with the
agreement read off from the theorem. -/
theorem setTheme_consistent_witness :
    darkDom.rootTheme = some "dark" ∧ darkDom.storage = some "dark" ∧
    darkDom.theme = "dark" :=
  have h : setTheme baseDom "dark" = some darkDom := by decide
  have c := setTheme_consistent baseDom darkDom "dark" (Or.inr rfl) h
  ⟨c.1, c.2.2.1, c.2.2.2.1⟩

/-- C6 counterexample: when the toggle button exists but its icon
children `.light-icon` / `.dark-icon` do not, the icon update
dereferences a null element and throws a TypeError instead of being a
no-op. -/
theorem updateThemeIcon_missing_icons_counterexample :
    updateThemeIcon { baseDom with toggleBtn := some ⟨none, none⟩ } = none := by
  decide

/-- C6 (amended): the icon update is a no-op (and cannot throw) only
when the toggle button itself is absent; when the button exists but
either icon child is missing, `updateThemeIcon` throws. -/
theorem updateThemeIcon_amended (d : Dom) :
    (d.toggleBtn = none → updateThemeIcon d = some d) ∧
    (∀ di, d.toggleBtn = some ⟨none, di⟩ → updateThemeIcon d = none) ∧
    (∀ li, d.toggleBtn = some ⟨some li, none⟩ → updateThemeIcon d = none) := by
  refine ⟨?_, ?_, ?_⟩
  · intro h
    simp [updateThemeIcon, h]
  · intro di h
    by_cases ht : d.theme = "dark" <;> cases di <;>
      simp [updateThemeIcon, h, ht]
  · intro li h
    by_cases ht : d.theme = "dark" <;>
      simp [updateThemeIcon, h, ht]

/-- C6 witness: with the toggle button absent the amended theorem gives
the no-op behaviour on a concrete document. -/
theorem updateThemeIcon_amended_witness :
    updateThemeIcon { baseDom with toggleBtn := none } =
      some { baseDom with toggleBtn := none } :=
  (updateThemeIcon_amended { baseDom with toggleBtn := none }).1 rfl

/-- A document whose storage operations throw. -/
def domStorageOff : Dom :=
  { baseDom with storageAvailable := false }

/-- C3 counterexample: when the underlying storage throws, the
constructor read and the write inside `setTheme` propagate the
exception (result `none`) — neither is wrapped in try/catch in the main
controller, so the failure is not caught there. -/
theorem storage_unavailable_counterexample :
    constructorReadTheme domStorageOff = none ∧
    setTheme domStorageOff "light" = none := by
  decide

/-- C3 (amended): a storage exception propagates to the caller from
both the constructor read and the `setTheme` write of the main
controller; only the separate early theme-initialization script catches
the failure and falls back to the default light theme without
raising. -/
theorem storage_unavailable_amended (d : Dom) (h : d.storageAvailable = false) :
    constructorReadTheme d = none ∧ (∀ t, setTheme d t = none) ∧
    earlyThemeInit d = { d with rootTheme := some "light" } := by
  refine ⟨?_, ?_, ?_⟩
  · simp [constructorReadTheme, localStorage_getItem, h]
  · intro t
    simp [setTheme, localStorage_setItem, h]
  · simp [earlyThemeInit, h]

/-- C3 witness: the amended theorem at a concrete document with storage
unavailable. -/
theorem storage_unavailable_amended_witness :
    earlyThemeInit domStorageOff =
      { domStorageOff with rootTheme := some "light" } :=
  (storage_unavailable_amended domStorageOff rfl).2.2

/-- C7: from any consistent starting state of the two-state theme
machine, toggling twice restores the document attributes, the stored
value, `this.theme` and the icon state to their original values. -/
theorem toggleTheme_twice_id (d : Dom) (t : String)
    (ht : t = "light" ∨ t = "dark") (hth : d.theme = t)
    (hroot : d.rootTheme = some t) (hbody : d.bodyTheme = some t)
    (hst : d.storage = some t) (hsa : d.storageAvailable = true)
    (hbtn : d.toggleBtn = some (iconFor t)) :
    (toggleTheme d).bind toggleTheme = some d := by
  rcases d with ⟨rt, bt, rc, bc, st, sa, th, tb, ls, ll, lc, nb, nl, pb, pl⟩
  dsimp only at hth hroot hbody hst hsa hbtn
  subst hth hroot hbody hst hsa hbtn
  rcases ht with ht | ht <;> subst ht <;>
    simp [toggleTheme, setTheme, localStorage_setItem, updateThemeIcon, iconFor]

/-- A consistent light-theme document. -/
def lightDom : Dom :=
  { baseDom with
    rootTheme := some "light", bodyTheme := some "light",
    storage := some "light" }

/-- C7 witness: two toggles from the concrete consistent light state
return exactly that state. -/
theorem toggleTheme_twice_id_witness :
    (toggleTheme lightDom).bind toggleTheme = some lightDom :=
  toggleTheme_twice_id lightDom "light" (Or.inl rfl) rfl rfl rfl rfl rfl
    (by decide)

/-- `initLoading` (lines 25-41): returns immediately when
`#loading-screen` is absent; otherwise registers the window load
listener that will schedule `hideLoading`. -/
def initLoading (d : Dom) : Dom :=
  match d.loadingScreen with
  | none => d
  | some _ => { d with loadListener := true }

/-- The `updateNavbar` closure inside `initNavigation` (lines 116-127),
run on scroll via requestAnimationFrame: it dereferences the captured
`navbar` without a null check, so when `#main-navbar` is absent the
handler throws a TypeError (`none`) instead of skipping. -/
def updateNavbar (d : Dom) (scrollY : ℚ) : Option Dom :=
  match d.navbar with
  | none => none
  | some cls =>
      if 100 < scrollY then some { d with navbar := some (addClass cls "scrolled") }
      else some { d with navbar := some (removeClass cls "scrolled") }

/-- The part of `initNavigation` (lines 107-153) that runs at init time
and can change the modeled state or throw: the final loop calls
`link.getAttribute('href').startsWith('#')` on every `.nav-link`, which
throws a TypeError when a link has no `href` attribute.  Listener
registration and the active-class bookkeeping of `updateActiveNavLink`
do not touch the modeled fields. -/
def initNavigation (d : Dom) : Option Dom :=
  if d.navLinks.all (fun l => l.href.isSome) then some d else none

/-- `initScrollProgress` (lines 186-243) at init time: creates the
progress-bar elements and registers the scroll handler; it cannot
throw. -/
def initScrollProgress (d : Dom) : Dom :=
  { d with progressBarCreated := true }

/-- `init` (lines 12-22): the plain statement sequence
`setTheme; initLoading; initNavigation; initScrollProgress; ...` with no
try/catch around any call, so an exception from one initializer aborts
the whole sequence.  The remaining initializers (`initBackToTop`,
`initAnimations`, `initInteractions`, `initPerformance`,
`initAccessibility`) only create elements and register listeners and do
not change the modeled state. -/
def init (d : Dom) : Option Dom :=
  (setTheme d d.theme).bind (fun d1 =>
    (initNavigation (initLoading d1)).bind (fun d3 =>
      some (initScrollProgress d3)))

/-- C4 counterexample: (1) with `#main-navbar` absent the navbar feature
is not silently skipped — the installed scroll handler throws; (2) with
a theme-toggle button whose icon children are missing, `setTheme`
throws inside `init`, and because `init` has no error containment none
of the sibling initializers run (the whole of `init` throws). -/
theorem init_skip_counterexample :
    updateNavbar baseDom 150 = none ∧
    init { baseDom with toggleBtn := some ⟨none, none⟩ } = none := by
  decide

/-- C4 (amended): initializers that look up a single optional element
(loading screen) check for absence and skip, and collection-based
initializers are no-ops on empty collections; but the navbar scroll
handler throws when `#main-navbar` is absent, and `init` chains the
initializers with no error containment, so a throwing step (for
example `setTheme` with missing icon children) prevents every later
initializer from running. -/
theorem init_skip_amended (d : Dom) :
    (d.loadingScreen = none → initLoading d = d) ∧
    (d.navLinks = [] → initNavigation d = some d) ∧
    (d.navbar = none → ∀ y, updateNavbar d y = none) ∧
    (setTheme d d.theme = none → init d = none) := by
  refine ⟨?_, ?_, ?_, ?_⟩
  · intro h
    simp [initLoading, h]
  · intro h
    simp [initNavigation, h]
  · intro h y
    simp [updateNavbar, h]
  · intro h
    simp [init, h]

/-- C4 witness: the amended theorem at concrete documents — skipping
when the loading screen is absent, throwing on scroll when the navbar
is absent. -/
theorem init_skip_amended_witness :
    initLoading baseDom = baseDom ∧ updateNavbar baseDom 50 = none :=
  ⟨(init_skip_amended baseDom).1 rfl,
   (init_skip_amended baseDom).2.2.1 rfl 50⟩

/-- `minLoadTime` (line 30), in milliseconds. -/
def minLoadTime : ℤ := 300

/-- `remainingTime` (line 35): `Math.max(0, minLoadTime - elapsedTime)`
where `elapsedTime` is the time from startup to the window load
event. -/
def remainingTime (elapsed : ℤ) : ℤ :=
  max 0 (minLoadTime - elapsed)

/-- The absolute time (ms from startup) at which the scheduled
`hideLoading` call runs when the window load event fires at `e`. -/
def hideStartTime (e : ℤ) : ℤ :=
  e + remainingTime e

/-- The absolute time at which the 500ms timeout inside `hideLoading`
fires. -/
def removalTime (e : ℤ) : ℤ :=
  hideStartTime e + 500

/-- First phase of `hideLoading` (line 44): adds the class "hidden" to
the captured loading-screen element (whose existence `initLoading`
checked before registering the listener). -/
def hideLoadingStart (d : Dom) : Dom :=
  match d.loadingScreen with
  | none => d
  | some cls => { d with loadingScreen := some (addClass cls "hidden") }

/-- Second phase of `hideLoading` (lines 45-49), 500ms later: removes
the overlay element, marks loading complete, and immediately runs the
post-load initializers (`initPostLoad`, lines 52-58). -/
def hideLoadingFinish (d : Dom) : Dom :=
  { d with loadingScreen := none, loadingComplete := true, postLoadRan := true }

/-- C9: with the loading overlay present and window load at `e` ms,
hiding is scheduled `max(0, 300 - e)` ms later, hence never before
300ms from startup; hiding first adds the "hidden" class, and 500ms
after hiding begins the overlay is removed, loading is marked complete
and the post-load initializers run. -/
theorem loading_timing (e : ℤ) (he : 0 ≤ e) (d : Dom) (cls : List String)
    (hd : d.loadingScreen = some cls) :
    remainingTime e = max 0 (300 - e) ∧
    300 ≤ hideStartTime e ∧
    removalTime e = hideStartTime e + 500 ∧
    (hideLoadingStart d).loadingScreen = some (addClass cls "hidden") ∧
    (hideLoadingFinish (hideLoadingStart d)).loadingScreen = none ∧
    (hideLoadingFinish (hideLoadingStart d)).loadingComplete = true ∧
    (hideLoadingFinish (hideLoadingStart d)).postLoadRan = true := by
  refine ⟨rfl, ?_, rfl, ?_, rfl, rfl, rfl⟩
  · unfold hideStartTime remainingTime minLoadTime
    omega
  · simp [hideLoadingStart, hd]

/-- A document with an (empty-classed) loading overlay present. -/
def loadingDom : Dom :=
  { baseDom with loadingScreen := some [] }

/-- C9 witness: window load at 50ms on a concrete document with the
overlay present — the overlay hides no earlier than 300ms and is
removed 500ms after hiding begins. -/
theorem loading_timing_witness :
    300 ≤ hideStartTime 50 ∧ removalTime 50 = hideStartTime 50 + 500 ∧
    (hideLoadingFinish (hideLoadingStart loadingDom)).loadingComplete = true :=
  have c := loading_timing 50 (by norm_num) loadingDom [] rfl
  ⟨c.2.1, c.2.2.1, c.2.2.2.2.2.1⟩

/-- The scroll-percentage computation of the scroll handler in
`initScrollProgress` (lines 235-237): `scrollHeight > 0 ?
(scrollTop / scrollHeight) * 100 : 0`. -/
def scrollPercent (scrollTop scrollHeight : ℚ) : ℚ :=
  if 0 < scrollHeight then scrollTop / scrollHeight * 100 else 0

/-- The width written to the progress bar (line 239):
`Math.min(Math.max(scrollPercent, 0), 100)`. -/
def progressWidth (scrollTop scrollHeight : ℚ) : ℚ :=
  min (max (scrollPercent scrollTop scrollHeight) 0) 100

/-- C8: for every raw scroll offset and scrollable height — including
negative offsets and offsets beyond the scrollable height — the
percentage written to the progress bar is clamped to [0, 100], and it
is 0 whenever the scrollable height is not positive. -/
theorem progressWidth_clamped (st sh : ℚ) :
    0 ≤ progressWidth st sh ∧ progressWidth st sh ≤ 100 ∧
    (sh ≤ 0 → progressWidth st sh = 0) := by
  refine ⟨le_min (le_max_right _ _) (by norm_num), min_le_right _ _, ?_⟩
  intro h
  have hns : ¬ 0 < sh := not_lt.mpr h
  norm_num [progressWidth, scrollPercent, hns]

/-- C8 witness: a negative offset with a non-positive scrollable height
yields exactly width 0. -/
theorem progressWidth_clamped_witness :
    0 ≤ progressWidth (-50) 0 ∧ progressWidth (-50) 0 = 0 :=
  ⟨(progressWidth_clamped (-50) 0).1, (progressWidth_clamped (-50) 0).2.2 le_rfl⟩

/-- The cubic ease-out curve of `animateCounter` (lines 375-376):
`easeOut = 1 - Math.pow(1 - progress, 3)` with `progress = step / 60`
(`steps = 60`). -/
def easeOut (step : ℕ) : ℚ :=
  1 - (1 - (step : ℚ) / 60) ^ 3

/-- The value computed and written at a tick (line 377):
`Math.floor(target * easeOut)`. -/
def displayValue (target step : ℕ) : ℤ :=
  ⌊(target : ℚ) * easeOut step⌋

/-- The element's displayed text after tick `step`: the code writes
`displayValue` each tick and on the final step (`step >= steps`, lines
381-384) overwrites it with exactly `target`. -/
def displayedAt (target step : ℕ) : ℤ :=
  if 60 ≤ step then (target : ℤ) else displayValue target step

lemma easeOut_nonneg_base {s : ℕ} (h : s ≤ 60) : (0 : ℚ) ≤ 1 - (s : ℚ) / 60 := by
  rw [sub_nonneg, div_le_one (by norm_num)]
  exact_mod_cast h

lemma easeOut_mono {s₁ s₂ : ℕ} (h12 : s₁ ≤ s₂) (h2 : s₂ ≤ 60) :
    easeOut s₁ ≤ easeOut s₂ := by
  unfold easeOut
  have hb := easeOut_nonneg_base h2
  have hc : 1 - (s₂ : ℚ) / 60 ≤ 1 - (s₁ : ℚ) / 60 := by
    have h12q : (s₁ : ℚ) ≤ (s₂ : ℚ) := by exact_mod_cast h12
    linarith
  have := pow_le_pow_left hb hc 3
  linarith

lemma easeOut_le_one {s : ℕ} (h : s ≤ 60) : easeOut s ≤ 1 := by
  unfold easeOut
  have := pow_nonneg (easeOut_nonneg_base h) 3
  linarith

lemma displayedAt_eq (target : ℕ) {s : ℕ} (hs : s ≤ 60) :
    displayedAt target s = ⌊(target : ℚ) * easeOut s⌋ := by
  unfold displayedAt
  by_cases h : 60 ≤ s
  · have hs60 : s = 60 := le_antisymm hs h
    subst hs60
    rw [if_pos le_rfl]
    have h1 : easeOut 60 = 1 := by norm_num [easeOut]
    rw [h1, mul_one, Int.floor_natCast]
  · rw [if_neg h]
    rfl

lemma displayedAt_le_target (target : ℕ) {s : ℕ} (hs : s ≤ 60) :
    displayedAt target s ≤ (target : ℤ) := by
  rw [displayedAt_eq target hs]
  have h1 : (target : ℚ) * easeOut s ≤ (target : ℚ) :=
    mul_le_of_le_one_right (Nat.cast_nonneg target) (easeOut_le_one hs)
  calc ⌊(target : ℚ) * easeOut s⌋ ≤ ⌊(target : ℚ)⌋ := Int.floor_le_floor h1
    _ = (target : ℤ) := Int.floor_natCast target

/-- C5: at every step `s` of the counter animation the displayed value
is `⌊target * (1 - (1 - s/60)^3)⌋`; the displayed sequence is
monotonically non-decreasing, never exceeds the target at any
intermediate step, and equals exactly the target at the final step. -/
theorem animateCounter_displayed (target s₁ s₂ : ℕ)
    (h1 : 1 ≤ s₁) (h12 : s₁ ≤ s₂) (h2 : s₂ ≤ 60) :
    displayedAt target s₁ = ⌊(target : ℚ) * (1 - (1 - (s₁ : ℚ) / 60) ^ 3)⌋ ∧
    displayedAt target s₁ ≤ displayedAt target s₂ ∧
    displayedAt target s₂ ≤ (target : ℤ) ∧
    displayedAt target 60 = (target : ℤ) := by
  refine ⟨displayedAt_eq target (h12.trans h2), ?_, displayedAt_le_target target h2, ?_⟩
  · rw [displayedAt_eq target (h12.trans h2), displayedAt_eq target h2]
    exact Int.floor_le_floor
      (mul_le_mul_of_nonneg_left (easeOut_mono h12 h2) (Nat.cast_nonneg target))
  · unfold displayedAt
    rw [if_pos le_rfl]

/-- C5 witness: a counter with target 100 at steps 1 and 60 — its first
displayed value does not exceed its last, and the final step shows
exactly 100. -/
theorem animateCounter_displayed_witness :
    displayedAt 100 1 ≤ displayedAt 100 60 ∧ displayedAt 100 60 = (100 : ℤ) :=
  have c := animateCounter_displayed 100 1 60 (by norm_num) (by norm_num) (by norm_num)
  ⟨c.2.1, c.2.2.2⟩

/-- The JavaScript whitespace class as used by both `trim` and the `\s`
of the email pattern, restricted to the ASCII control/space characters
(the exotic Unicode space code points behave identically for every
property proved here). -/
def jsIsSpace (c : Char) : Bool :=
  c = ' ' || c = '\t' || c = '\n' || c = '\r' || c.toNat = 11 || c.toNat = 12

/-- `String.prototype.trim`: strips leading and trailing whitespace. -/
def jsTrim (s : String) : String :=
  ⟨((s.data.dropWhile jsIsSpace).reverse.dropWhile jsIsSpace).reverse⟩

/-- The email pattern `^[^\s@]+@[^\s@]+\.[^\s@]+$` (line 577) as a
decidable predicate.  A full match exists exactly when the string has
no whitespace, exactly one `@` preceded by at least one character, and
after the `@` a dot at an interior position: the class `[^\s@]` admits
dots, so the three runs are otherwise unconstrained. -/
def emailRegexTest (s : String) : Bool :=
  let cs := s.data
  cs.all (fun c => !(jsIsSpace c)) &&
  cs.count '@' == 1 &&
  !((cs.takeWhile (fun c => c ≠ '@')).isEmpty) &&
  (((cs.dropWhile (fun c => c ≠ '@')).tail.drop 1).dropLast.contains '.')

/-- A form field as `validateField` reads it: `field.value`,
`field.required`, `field.type`. -/
structure FormField where
  value : String
  required : Bool
  type : String
deriving Repr, DecidableEq

/-- `validateField` (lines 562-589): trims the value, removes both
validation classes from the field container, marks `invalid` (returning
false) for an empty required field or a non-empty email field failing
the pattern, marks `valid` for any other non-empty value, and leaves
both classes absent (returning true) for an empty optional field.
Returns the result together with the container's new class list. -/
def validateField (field : FormField) (container : List String) : Bool × List String :=
  let value := jsTrim field.value
  let c1 := removeClass (removeClass container "valid") "invalid"
  if field.required && (value == "") then
    (false, addClass c1 "invalid")
  else if field.type == "email" && !(value == "") && !(emailRegexTest value) then
    (false, addClass c1 "invalid")
  else if !(value == "") then
    (true, addClass c1 "valid")
  else
    (true, c1)

lemma mem_addClass (x c : String) (l : List String) :
    x ∈ addClass l c ↔ x ∈ l ∨ x = c := by
  unfold addClass
  split_ifs with h
  · constructor
    · exact Or.inl
    · rintro (h1 | rfl)
      · exact h1
      · exact h
  · simp

lemma mem_removeClass (x c : String) (l : List String) :
    x ∈ removeClass l c ↔ x ∈ l ∧ x ≠ c := by
  unfold removeClass
  simp

/-- C10: after any `validateField` call the container carries at most
one of the classes "valid" and "invalid"; the call returns false
exactly when it marked the container "invalid"; and an optional field
whose trimmed value is empty is left with neither class while the call
returns true. -/
theorem validateField_invariant (field : FormField) (container : List String) :
    ¬("valid" ∈ (validateField field container).2 ∧
      "invalid" ∈ (validateField field container).2) ∧
    ((validateField field container).1 = false ↔
      "invalid" ∈ (validateField field container).2) ∧
    (jsTrim field.value = "" → field.required = false →
      (validateField field container).1 = true ∧
      "valid" ∉ (validateField field container).2 ∧
      "invalid" ∉ (validateField field container).2) := by
  have hv : "valid" ∉ removeClass (removeClass container "valid") "invalid" := by
    rw [mem_removeClass, mem_removeClass]
    rintro ⟨⟨-, h⟩, -⟩
    exact h rfl
  have hi : "invalid" ∉ removeClass (removeClass container "valid") "invalid" := by
    rw [mem_removeClass]
    rintro ⟨-, h⟩
    exact h rfl
  unfold validateField
  dsimp only
  split_ifs with hc1 hc2 hc3
  · refine ⟨?_, ?_, ?_⟩
    · simp [mem_addClass, hv]
    · simp [mem_addClass]
    · intro hemp hreq
      exfalso
      rw [hemp, hreq] at hc1
      simp at hc1
  · refine ⟨?_, ?_, ?_⟩
    · simp [mem_addClass, hv]
    · simp [mem_addClass]
    · intro hemp hreq
      exfalso
      rw [hemp] at hc2
      simp at hc2
  · refine ⟨?_, ?_, ?_⟩
    · simp [mem_addClass, hi]
    · simp [mem_addClass, hi]
    · intro hemp hreq
      exfalso
      rw [hemp] at hc3
      simp at hc3
  · exact ⟨by simp [hi], by simp [hi], fun _ _ => ⟨rfl, hv, hi⟩⟩

/-- C10 witness: an optional text field whose value is only whitespace
is left with neither validation class and the call returns true. -/
theorem validateField_invariant_witness :
    (validateField ⟨"   ", false, "text"⟩ ["focused"]).1 = true ∧
    "valid" ∉ (validateField ⟨"   ", false, "text"⟩ ["focused"]).2 ∧
    "invalid" ∉ (validateField ⟨"   ", false, "text"⟩ ["focused"]).2 :=
  (validateField_invariant ⟨"   ", false, "text"⟩ ["focused"]).2.2 (by decide) rfl
